import Mathlib

/-!
Verification of the incident-console frontend of the gaipl-gpt-seek
repository.  The TypeScript sources (Next.js/React components and the
fetch-based `IncidentService`) are shallowly embedded below: ISO-8601
timestamp strings are modelled as epoch milliseconds (`Nat`), which is
exactly the quantity the source compares via `new Date(s).getTime()`;
HTTP responses are modelled as a status code together with an optional
parsed JSON body; React state updates become pure functions on explicit
state values.  Backend route handlers are not part of the frontend
sources; where a property depends on them they are modelled from the
design document, and each such definition is marked in its doc comment.
-/

namespace GptSeek


/-- Severity levels of an incident, from `lib/types/incident.ts`. -/
inductive Severity where
  | low
  | medium
  | high
  | critical
  deriving DecidableEq, Repr

/-- Status values of an incident, from `lib/types/incident.ts`.  The
TypeScript literal `"open"` is rendered `open_` because `open` is a
Lean keyword. -/
inductive Status where
  | open_
  | analyzing
  | in_progress
  | resolved
  deriving DecidableEq, Repr

/-- The `Incident` record of `lib/types/incident.ts`; the two ISO
timestamp strings are modelled as epoch milliseconds. -/
structure Incident where
  id : String
  title : String
  description : String
  component : String
  severity : Severity
  affected_service : String
  status : Status
  created_at : Nat
  updated_at : Nat
  deriving DecidableEq, Repr

/-- Health classification used by the dashboard, from
`lib/types/incident.ts`. -/
inductive HealthStatus where
  | healthy
  | degraded
  | unhealthy
  deriving DecidableEq, Repr

/-- Per-component aggregate record built by `fetchMetrics` in
`app/health/page.tsx` (status, incident count, latest `created_at`; the
initial empty string for `lastIncident` is modelled as `none`). -/
structure ComponentHealth where
  status : HealthStatus
  incidents : Nat
  lastIncident : Option Nat
  deriving DecidableEq, Repr

/-- Lookup in the JS object `componentHealth`, modelled as an
association list keyed by component name. -/
def chLookup (acc : List (String × ComponentHealth)) (c : String) :
    Option ComponentHealth :=
  (acc.find? (fun p => p.1 == c)).map (fun p => p.2)

/-- Store a binding in the association list, replacing an existing
binding for the same component and appending otherwise (JS object
field assignment). -/
def chStore (acc : List (String × ComponentHealth)) (c : String)
    (h : ComponentHealth) : List (String × ComponentHealth) :=
  match acc with
  | [] => [(c, h)]
  | p :: rest => if p.1 == c then (c, h) :: rest else p :: chStore rest c h

/-- One iteration of the `incidents.forEach` loop of `fetchMetrics` in
`app/health/page.tsx` (lines 33-58): initialise the component record if
absent, increment its incident count, bump `lastIncident` when this
incident is newer, and update the status from unresolved incidents
(`critical` assigns `unhealthy`, otherwise `high` assigns `degraded`). -/
def applyIncident (acc : List (String × ComponentHealth)) (i : Incident) :
    List (String × ComponentHealth) :=
  let h0 := (chLookup acc i.component).getD
    { status := HealthStatus.healthy, incidents := 0, lastIncident := none }
  let h1 : ComponentHealth := { h0 with incidents := h0.incidents + 1 }
  let h2 : ComponentHealth :=
    match h1.lastIncident with
    | none => { h1 with lastIncident := some i.created_at }
    | some t =>
      if t < i.created_at then { h1 with lastIncident := some i.created_at }
      else h1
  let h3 : ComponentHealth :=
    if i.status ≠ Status.resolved then
      if i.severity = Severity.critical then
        { h2 with status := HealthStatus.unhealthy }
      else if i.severity = Severity.high then
        { h2 with status := HealthStatus.degraded }
      else h2
    else h2
  chStore acc i.component h3

/-- The component-health aggregation of `fetchMetrics` in
`app/health/page.tsx`: fold the loop body over the incident list in
order. -/
def componentHealth (incidents : List Incident) :
    List (String × ComponentHealth) :=
  incidents.foldl applyIncident []

/-- An unresolved critical incident of component `db`. -/
def dbCriticalIncident : Incident :=
  { id := "i1", title := "t1", description := "d1", component := "db",
    severity := Severity.critical, affected_service := "svc",
    status := Status.open_, created_at := 100, updated_at := 100 }

/-- An unresolved high-severity incident of component `db`, created
after `dbCriticalIncident`. -/
def dbHighIncident : Incident :=
  { id := "i2", title := "t2", description := "d2", component := "db",
    severity := Severity.high, affected_service := "svc",
    status := Status.open_, created_at := 200, updated_at := 200 }

/-- A recommended action, from `lib/types/incident.ts` (the optional
`params` mapping is modelled as a list of key-value pairs). -/
structure IncidentAction where
  id : String
  type : String
  title : String
  description : String
  params : List (String × String)
  deriving DecidableEq, Repr

/-- A named metric of a health-check result, from
`lib/types/incident.ts`. -/
structure HealthMetric where
  name : String
  value : Int
  unit : String
  threshold : Option Int
  deriving DecidableEq, Repr

/-- The `HealthCheckResult` record of `lib/types/incident.ts`. -/
structure HealthCheckResult where
  status : HealthStatus
  metrics : List HealthMetric
  message : String
  deriving DecidableEq, Repr

/-- The `{success, message}` payload returned by the execute-action
endpoint, per `IncidentService.executeAction`. -/
structure ActionResult where
  success : Bool
  message : String
  deriving DecidableEq, Repr

/-- The `{analysis, recommended_actions}` payload returned by the
analyze endpoint, per `IncidentService.analyzeIncident`. -/
structure AnalyzeResult where
  analysis : String
  recommended_actions : List IncidentAction
  deriving DecidableEq, Repr

/-- A resolved `fetch` response: the HTTP status code together with the
parsed JSON body (`none` when `response.json()` would reject). -/
structure HttpResponse (α : Type) where
  status : Nat
  body : Option α

/-- The `Response.ok` accessor of `fetch`: status in the 2xx range. -/
def respOk (r : HttpResponse α) : Bool :=
  decide (200 ≤ r.status ∧ r.status < 300)

/-- The shared shape of every `IncidentService` method in
`lib/services/incidentService.ts`: `if (!response.ok) throw new
Error(errMsg); return response.json()`. -/
def serviceFetch (errMsg : String) (r : HttpResponse α) : Except String α :=
  if respOk r then
    match r.body with
    | some b => Except.ok b
    | none => Except.error "invalid json"
  else Except.error errMsg

namespace IncidentService

/-- Response handling of `IncidentService.createIncident`. -/
def createIncident (r : HttpResponse Incident) : Except String Incident :=
  serviceFetch "Failed to create incident" r

/-- Response handling of `IncidentService.getIncidents`. -/
def getIncidents (r : HttpResponse (List Incident)) :
    Except String (List Incident) :=
  serviceFetch "Failed to fetch incidents" r

/-- Response handling of `IncidentService.analyzeIncident`. -/
def analyzeIncident (r : HttpResponse AnalyzeResult) :
    Except String AnalyzeResult :=
  serviceFetch "Failed to analyze incident" r

/-- Response handling of `IncidentService.executeAction`. -/
def executeAction (r : HttpResponse ActionResult) :
    Except String ActionResult :=
  serviceFetch "Failed to execute action" r

/-- Response handling of `IncidentService.getHealthCheck`. -/
def getHealthCheck (r : HttpResponse HealthCheckResult) :
    Except String HealthCheckResult :=
  serviceFetch "Failed to get health check" r

/-- Response handling of `IncidentService.closeIncident`. -/
def closeIncident (r : HttpResponse Incident) : Except String Incident :=
  serviceFetch "Failed to close incident" r

end IncidentService

/-- One source document attached to a chat answer, from the `Message`
interface of `components/Chat/ChatInterface.tsx` (the relevance score
is modelled as an integer number of hundredths). -/
structure ChatSource where
  source : String
  score : Int
  chunk_size : Nat
  chunk_overlap : Nat
  deriving DecidableEq, Repr

/-- The parsed body of a `POST /query` response as consumed by
`handleSubmit` (`data.result`, `data.sources`). -/
structure ChatResponse where
  result : String
  sources : List ChatSource
  deriving DecidableEq, Repr

/-- The message appended by `handleSubmit` after the fetch: either an
assistant reply built from the parsed body, or the fixed apology
message produced by the `catch` branch. -/
inductive ChatReply where
  | assistant (content : String) (sources : List ChatSource)
  | failure (content : String)
  deriving DecidableEq, Repr

/-- Response handling of `handleSubmit` in
`components/Chat/ChatInterface.tsx` (lines 263-291): the HTTP status is
never inspected; `await response.json()` rejecting (or the fetch itself
rejecting) is the only path into the `catch` branch. -/
def chatSubmit (r : HttpResponse ChatResponse) : ChatReply :=
  match r.body with
  | some d => ChatReply.assistant d.result d.sources
  | none => ChatReply.failure "Sorry, there was an error processing your request."

/-- The marker that tags a fenced code block as executable, from the
`code` renderer of `components/Chat/ChatInterface.tsx` (line 73). -/
def cmdMarker : List Char := "command:".data

/-- JavaScript `String.prototype.replace` with a string pattern:
replace the first occurrence of `pat` by `repl`, leaving the string
unchanged when `pat` does not occur (for a non-empty `pat`). -/
def listReplaceFirst (pat repl : List Char) : List Char → List Char
  | [] => []
  | c :: cs =>
    if pat.isPrefixOf (c :: cs) then repl ++ (c :: cs).drop pat.length
    else c :: listReplaceFirst pat repl cs

/-- JavaScript `String.prototype.trim`: drop leading and trailing
whitespace. -/
def trimChars (s : List Char) : List Char :=
  ((s.dropWhile Char.isWhitespace).reverse.dropWhile Char.isWhitespace).reverse

/-- The `/\n$/` strip applied to a rendered code block's children
(`ChatInterface.tsx` line 70): remove one trailing newline. -/
def stripTrailingNewline (s : List Char) : List Char :=
  if s.getLast? = some '\n' then s.dropLast else s

/-- The `isCommand` flag of the `code` renderer (line 73):
`codeContent.startsWith('command:')`. -/
def isCommandBlock (s : List Char) : Bool := cmdMarker.isPrefixOf s

/-- The Run button of the `code` renderer is emitted exactly under
`isCommand` (line 88). -/
def renderRunButton (s : List Char) : Bool := isCommandBlock s

/-- The `commandContent` value of the `code` renderer (line 74):
`isCommand ? codeContent.replace('command:', '').trim() : codeContent`;
this is the string handed to `handleExecuteCommand` by the Run button. -/
def commandContent (s : List Char) : List Char :=
  if isCommandBlock s then trimChars (listReplaceFirst cmdMarker [] s) else s

/-- The error taxonomy of the design document that matters to the
incident workflow: an unknown incident id. -/
inductive WorkflowError where
  | notFound
  deriving DecidableEq, Repr

/-- Lookup of an incident by id in the store. -/
def findIncident (store : List Incident) (id : String) : Option Incident :=
  store.find? (fun i => i.id == id)

namespace Backend

/-- Modelled from the spec: the backend route handlers are not among
the frontend sources, so `executeAction(id, actionId, params)` follows
section 4.1 of the design document: fail with NotFoundError when the
incident is unknown; otherwise invoke the Action Executor (its external
outcome is the `actionOk` parameter and its diagnostic text the `msg`
parameter); on success set the incident's status to `in_progress` and
`updated_at` to now and return `{success := true, message}`; on failure
return `{success := false, message}` without raising and without
mutating the store. -/
def executeAction (store : List Incident) (id : String) (actionOk : Bool)
    (msg : String) (now : Nat) :
    Except WorkflowError (List Incident × ActionResult) :=
  match findIncident store id with
  | none => Except.error WorkflowError.notFound
  | some _ =>
    if actionOk then
      Except.ok
        (store.map (fun i =>
          if i.id == id then
            { i with status := Status.in_progress, updated_at := now }
          else i),
          { success := true, message := msg })
    else Except.ok (store, { success := false, message := msg })

/-- Modelled from the spec: `close(id)` per section 4.1 of the design
document fails with NotFoundError when the incident is unknown and
otherwise sets its status to `resolved` and `updated_at` to now,
leaving it in the store. -/
def closeIncident (store : List Incident) (id : String) (now : Nat) :
    Except WorkflowError (List Incident) :=
  match findIncident store id with
  | none => Except.error WorkflowError.notFound
  | some _ =>
    Except.ok
      (store.map (fun i =>
        if i.id == id then
          { i with status := Status.resolved, updated_at := now }
        else i))

end Backend

/-- The two toast kinds of the incident-details page. -/
inductive ToastKind where
  | success
  | error
  deriving DecidableEq, Repr

/-- The toast decision of `executeAction` in the incident-details page
(lines 321-352 of the page source): a thrown service error yields the
fixed error toast; a returned result yields a success toast only inside
the `if (result.success)` branch (with `result.message ||` the default
text, the empty string being falsy); a returned `success: false` result
yields no toast at all. -/
def detailsToast (res : Except String ActionResult) :
    Option (String × ToastKind) :=
  match res with
  | Except.error _ =>
    some ("Failed to execute action. Please try again.", ToastKind.error)
  | Except.ok r =>
    if r.success then
      some ((if r.message = "" then "Action executed successfully" else r.message),
        ToastKind.success)
    else none

/-- The `Omit<Incident, 'id'>` payload type of
`IncidentService.createIncident`: every incident field except the id,
exactly what `JSON.stringify(incident)` places in the request body. -/
structure IncidentFields where
  title : String
  description : String
  component : String
  severity : Severity
  affected_service : String
  status : Status
  created_at : Nat
  updated_at : Nat
  deriving DecidableEq, Repr

/-- Modelled from the spec: the id generator of the backend store is
not among the frontend sources; the design document only requires the
generated id to be unique across the store.  This model concatenates
every stored id and appends one more character, which is longer than
any stored id and hence distinct from all of them. -/
def freshId (store : List Incident) : String :=
  String.mk ((store.foldr (fun i acc => i.id.data ++ acc) []) ++ ['#'])

/-- Modelled from the spec: the create route handler is not among the
frontend sources; per section 4.1 of the design document,
`create(incident fields minus id)` returns a new `Incident` with a
generated id, `status = open`, and `created_at = updated_at = now`,
carrying the submitted fields. -/
def Backend.createIncident (store : List Incident) (f : IncidentFields)
    (now : Nat) : Incident :=
  { id := freshId store, title := f.title, description := f.description,
    component := f.component, severity := f.severity,
    affected_service := f.affected_service, status := Status.open_,
    created_at := now, updated_at := now }

/-- The local state update of `handleCloseIncident` in
`components/Dashboard/RecentActivity.tsx` (lines 42-48): map the closed
incident to status `resolved`, keeping every incident in the list. -/
def localCloseUpdate (incidents : List Incident) (id : String) :
    List Incident :=
  incidents.map (fun i =>
    if i.id == id then { i with status := Status.resolved } else i)

/-- The Close button of `RecentActivity` is rendered exactly under
`incident.status !== 'resolved'` (line 116). -/
def closeButtonShown (i : Incident) : Bool := i.status != Status.resolved

/-- The Execute button of the incident-details page is disabled under
`isLoading || incident.status === 'resolved'` (line 477 of the page
source). -/
def executeDisabled (loading : Bool) (i : Incident) : Bool :=
  loading || i.status == Status.resolved

/-- The comparison passed to `data.sort` by `fetchIncidents` in
`components/Dashboard/RecentActivity.tsx` (line 22): incident `a`
precedes incident `b` when `b.created_at ≤ a.created_at`, i.e.
descending creation time. -/
def createdDescRel (a b : Incident) : Prop := b.created_at ≤ a.created_at

instance : DecidableRel createdDescRel :=
  fun a b => Nat.decLe b.created_at a.created_at

instance : IsTotal Incident createdDescRel :=
  ⟨fun a b => le_total b.created_at a.created_at⟩

instance : IsTrans Incident createdDescRel :=
  ⟨fun _ _ _ h1 h2 => le_trans h2 h1⟩

/-- The `data.sort(...)` call of `fetchIncidents`, modelled as an
insertion sort under the descending-creation-time relation. -/
def sortByCreatedDesc (l : List Incident) : List Incident :=
  List.insertionSort createdDescRel l

/-- The displayed Recent Activity list: the sorted incidents with
`.slice(0, 5)` applied (line 23). -/
def recentActivity (l : List Incident) : List Incident :=
  (sortByCreatedDesc l).take 5

/-- The status state of `ExecutionPopup` in
`components/Chat/ChatInterface.tsx` (line 122): the `useState` type is
the two-value union `'executing' | 'completed'`; no error value exists. -/
inductive PopupStatus where
  | executing
  | completed
  deriving DecidableEq, Repr

/-- The state of `ExecutionPopup`: the status together with the
`splunkLink` string. -/
structure PopupState where
  status : PopupStatus
  splunkLink : String
  deriving DecidableEq, Repr

/-- The initial popup state: `executing` with an empty link. -/
def popupInit : PopupState :=
  { status := PopupStatus.executing, splunkLink := "" }

/-- The fixed delay, in milliseconds, of the `setTimeout` that
completes the simulated execution (line 130). -/
def popupDelayMs : Nat := 2000

/-- Uppercase hexadecimal digit of a value below 16, as used by
percent-encoding. -/
def hexDigitChar (n : Nat) : Char :=
  if n < 10 then Char.ofNat (48 + n) else Char.ofNat (55 + n)

/-- Percent-encode one byte as `%XY`. -/
def percentEncode (b : Nat) : List Char :=
  ['%', hexDigitChar (b / 16), hexDigitChar (b % 16)]

/-- UTF-8 bytes of a character, as values below 256. -/
def utf8Bytes (c : Char) : List Nat :=
  let n := c.toNat
  if n < 128 then [n]
  else if n < 2048 then [192 + n / 64, 128 + n % 64]
  else if n < 65536 then [224 + n / 4096, 128 + (n / 64) % 64, 128 + n % 64]
  else [240 + n / 262144, 128 + (n / 4096) % 64, 128 + (n / 64) % 64,
    128 + n % 64]

/-- The characters `encodeURIComponent` leaves unescaped: ASCII
letters, digits, and `- _ . ! ~ * ' ( )` (the apostrophe appears via
its code point 39). -/
def uriUnreserved (c : Char) : Bool :=
  c.isAlpha || c.isDigit || [45, 95, 46, 33, 126, 42, 39, 40, 41].contains c.toNat

/-- JavaScript `encodeURIComponent`: unreserved characters pass
through, every other character is replaced by the percent-encoding of
its UTF-8 bytes. -/
def encodeURIComponent (s : String) : String :=
  String.mk (s.data.foldr
    (fun c acc =>
      (if uriUnreserved c then [c]
       else (utf8Bytes c).foldr (fun b a => percentEncode b ++ a) []) ++ acc)
    [])

/-- The Splunk log-viewer URL built when the simulated execution
completes (`ChatInterface.tsx` line 129). -/
def splunkSearchUrl (command : String) : String :=
  "https://splunk.example.com/search?q=search%20command%3D"
    ++ encodeURIComponent command ++ "&earliest=-1h&latest=now"

/-- The `setTimeout` callback of `ExecutionPopup` (lines 127-130): set
the status to `completed` and the link to the Splunk URL of the
command. -/
def popupOnTimer (command : String) (s : PopupState) : PopupState :=
  { s with
    status := PopupStatus.completed
    splunkLink := splunkSearchUrl command }

/-- A JavaScript number restricted to the values reachable by the
resolution-rate computations: `NaN`, positive infinity, or a rational
value. -/
inductive JSNum where
  | nan
  | inf
  | num (q : ℚ)
  deriving DecidableEq, Repr

/-- JavaScript division of two non-negative counters: `0/0` is `NaN`,
`a/0` is `Infinity` for positive `a`, otherwise the exact quotient. -/
def jsDivNat (a b : Nat) : JSNum :=
  if b = 0 then (if a = 0 then JSNum.nan else JSNum.inf)
  else JSNum.num ((a : ℚ) / (b : ℚ))

/-- JavaScript multiplication by the literal 100: `NaN` and `Infinity`
absorb. -/
def jsMul100 : JSNum → JSNum
  | JSNum.num q => JSNum.num (q * 100)
  | x => x

/-- JavaScript `Math.round`: round half up on finite values, `NaN` and
`Infinity` absorb. -/
def jsRound : JSNum → JSNum
  | JSNum.num q => JSNum.num ((Rat.floor (q + 1 / 2) : ℤ) : ℚ)
  | x => x

/-- The `incidents.filter(i => i.status === 'resolved').length` counter
shared by both resolution-rate computations. -/
def countResolved (l : List Incident) : Nat :=
  (l.filter (fun i => i.status == Status.resolved)).length

/-- The Summary Statistics resolution rate of `app/metrics/page.tsx`
(line 192): `Math.round((resolved / incidents.length) * 100)` with no
guard on an empty list. -/
def metricsResolutionRate (l : List Incident) : JSNum :=
  jsRound (jsMul100 (jsDivNat (countResolved l) l.length))

/-- The dashboard overview resolution rate of
`components/Dashboard/IncidentOverview.tsx` (lines 28-30):
`totalIncidents > 0 ? Math.round((resolved / total) * 100) : 100`. -/
def overviewResolutionRate (l : List Incident) : JSNum :=
  if l.length > 0 then
    jsRound (jsMul100 (jsDivNat (countResolved l) l.length))
  else JSNum.num 100

/-- C1: the dashboard aggregation does NOT always assign `unhealthy` to
a component with an unresolved critical incident.  On the list
`[dbCriticalIncident, dbHighIncident]` the critical incident first sets
the `db` status to `unhealthy`, but the later unresolved high incident
overwrites it with `degraded`: the `else if severity === high` branch
assigns unconditionally instead of preserving the stronger status.  The
stated tie-break (critical beats high, independent of order) fails. -/
theorem componentHealth_unhealthy_overwritten_by_later_high :
    (chLookup (componentHealth [dbCriticalIncident, dbHighIncident]) "db").map
        ComponentHealth.status = some HealthStatus.degraded ∧
      some HealthStatus.degraded ≠ some HealthStatus.unhealthy := by
  exact ⟨rfl, by decide⟩

/-- C2 counterexample: the chat query submission does not treat a
non-2xx response as failure.  A status-500 response whose body parses
as `{result: "oops", sources: []}` is rendered as an ordinary assistant
reply carrying the parsed body, contradicting the claim that every
caller-side HTTP operation, the chat submission included, raises an
error on non-2xx. -/
theorem chatSubmit_renders_non2xx_body :
    respOk (α := ChatResponse) { status := 500, body := some { result := "oops", sources := [] } } = false ∧
      chatSubmit { status := 500, body := some { result := "oops", sources := [] } }
        = ChatReply.assistant "oops" [] := by
  exact ⟨by decide, rfl⟩

/-- C2 (amended): each of the six `IncidentService` operations treats a
non-2xx response uniformly as failure, raising its fixed error message
and never returning a parsed body; the chat submission is the lone
exception and is covered by the counterexample. -/
theorem incidentService_non2xx_is_error :
    (∀ r : HttpResponse Incident, respOk r = false →
        IncidentService.createIncident r = Except.error "Failed to create incident") ∧
      (∀ r : HttpResponse (List Incident), respOk r = false →
        IncidentService.getIncidents r = Except.error "Failed to fetch incidents") ∧
      (∀ r : HttpResponse AnalyzeResult, respOk r = false →
        IncidentService.analyzeIncident r = Except.error "Failed to analyze incident") ∧
      (∀ r : HttpResponse ActionResult, respOk r = false →
        IncidentService.executeAction r = Except.error "Failed to execute action") ∧
      (∀ r : HttpResponse HealthCheckResult, respOk r = false →
        IncidentService.getHealthCheck r = Except.error "Failed to get health check") ∧
      (∀ r : HttpResponse Incident, respOk r = false →
        IncidentService.closeIncident r = Except.error "Failed to close incident") := by
  refine ⟨?_, ?_, ?_, ?_, ?_, ?_⟩ <;>
    · intro r h
      simp [IncidentService.createIncident, IncidentService.getIncidents,
        IncidentService.analyzeIncident, IncidentService.executeAction,
        IncidentService.getHealthCheck, IncidentService.closeIncident,
        serviceFetch, h]

/-- C2 witness: the amended theorem applied to concrete 404 responses
with no parseable body, one per operation. -/
theorem incidentService_non2xx_is_error_witness :
    IncidentService.createIncident { status := 404, body := none } = Except.error "Failed to create incident" ∧
      IncidentService.getIncidents { status := 404, body := none } = Except.error "Failed to fetch incidents" ∧
      IncidentService.analyzeIncident { status := 404, body := none } = Except.error "Failed to analyze incident" ∧
      IncidentService.executeAction { status := 404, body := none } = Except.error "Failed to execute action" ∧
      IncidentService.getHealthCheck { status := 404, body := none } = Except.error "Failed to get health check" ∧
      IncidentService.closeIncident { status := 404, body := none } = Except.error "Failed to close incident" := by
  exact ⟨incidentService_non2xx_is_error.1 _ (by decide),
    incidentService_non2xx_is_error.2.1 _ (by decide),
    incidentService_non2xx_is_error.2.2.1 _ (by decide),
    incidentService_non2xx_is_error.2.2.2.1 _ (by decide),
    incidentService_non2xx_is_error.2.2.2.2.1 _ (by decide),
    incidentService_non2xx_is_error.2.2.2.2.2 _ (by decide)⟩

/-- Deleting the first occurrence of the marker from a string that
starts with it is exactly dropping the marker's length. -/
theorem listReplaceFirst_of_isPrefixOf (s : List Char)
    (h : cmdMarker.isPrefixOf s = true) :
    listReplaceFirst cmdMarker [] s = s.drop cmdMarker.length := by
  cases s with
  | nil => exact absurd h (by decide)
  | cons c cs => simp [listReplaceFirst, h]

/-- C3: the Run affordance is offered for a rendered code block exactly
when its content starts with `command:`, and the command passed to
execution is the content with that marker removed and surrounding
whitespace trimmed.  The content is quantified after the `/\n$/` strip
the renderer applies to its children. -/
theorem runButton_iff_command_marker (s : List Char) :
    (renderRunButton s = true ↔ cmdMarker.isPrefixOf s = true) ∧
      (cmdMarker.isPrefixOf s = true →
        commandContent s = trimChars (s.drop cmdMarker.length)) ∧
      (cmdMarker.isPrefixOf s = false → renderRunButton s = false) := by
  refine ⟨Iff.rfl, fun h => ?_, fun h => h⟩
  simp [commandContent, isCommandBlock, h, listReplaceFirst_of_isPrefixOf s h]

/-- C3 witness: the characterisation applied to the concrete block
content `command: restart api-gateway `, whose Run button is shown and
whose executed command is `restart api-gateway`. -/
theorem runButton_iff_command_marker_witness :
    renderRunButton ("command: restart api-gateway ".data) = true ∧
      commandContent ("command: restart api-gateway ".data)
        = "restart api-gateway".data ∧
      renderRunButton ("ls -la".data) = false := by
  refine ⟨(runButton_iff_command_marker ("command: restart api-gateway ".data)).1.mpr (by decide), ?_, (runButton_iff_command_marker ("ls -la".data)).2.2 (by decide)⟩
  have h := (runButton_iff_command_marker ("command: restart api-gateway ".data)).2.1 (by decide)
  rw [h]
  decide

/-- Updating every incident of a given id through an id-preserving
function commutes with looking the id up. -/
theorem findIncident_map_update (store : List Incident) (id : String)
    (f : Incident → Incident) (hf : ∀ i, (f i).id = i.id) :
    findIncident (store.map (fun i => if i.id == id then f i else i)) id
      = (findIncident store id).map (fun i => if i.id == id then f i else i) := by
  induction store with
  | nil => rfl
  | cons a rest ih =>
    simp only [findIncident, List.map_cons] at ih ⊢
    by_cases h : (a.id == id) = true
    · have h' : ((if a.id == id then f a else a).id == id) = true := by
        rw [if_pos h, hf a]; exact h
      rw [List.find?_cons_of_pos (p := fun i : Incident => i.id == id) _ h',
        List.find?_cons_of_pos (p := fun i : Incident => i.id == id) _ h]
      have ha : a.id = id := by simpa using h
      simp [ha]
    · have hb : (a.id == id) = false := by simpa using h
      have h' : ¬(((if a.id == id then f a else a).id == id) = true) := by
        rw [if_neg h, hb]; simp
      rw [List.find?_cons_of_neg (p := fun i : Incident => i.id == id) _ h',
        List.find?_cons_of_neg (p := fun i : Incident => i.id == id) _ h]
      exact ih

/-- C4: executing an action on a known incident whose action itself
fails returns `{success := false}` with the diagnostic message instead
of raising, leaves the store untouched, and the incident-details page
surfaces a success toast only for a `success := true` result. -/
theorem executeAction_failure_returns_result (store : List Incident)
    (id : String) (msg : String) (now : Nat)
    (h : (findIncident store id).isSome = true) :
    Backend.executeAction store id false msg now
        = Except.ok (store, { success := false, message := msg }) ∧
      (∀ r : ActionResult, ∀ m : String,
        detailsToast (Except.ok r) = some (m, ToastKind.success) →
          r.success = true) := by
  constructor
  · obtain ⟨i, hi⟩ := Option.isSome_iff_exists.mp h
    simp [Backend.executeAction, hi]
  · intro r m hm
    by_cases hs : r.success
    · exact hs
    · simp [detailsToast, hs] at hm

/-- C4 witness: the theorem applied to a one-incident store holding
`dbCriticalIncident` and a failing action. -/
theorem executeAction_failure_returns_result_witness :
    Backend.executeAction [dbCriticalIncident] "i1" false "disk full" 300
      = Except.ok ([dbCriticalIncident], { success := false, message := "disk full" }) :=
  (executeAction_failure_returns_result [dbCriticalIncident] "i1" "disk full" 300
    (by decide)).1

/-- C5: when the action succeeds on a known incident and the clock has
advanced past the incident's `updated_at`, the call returns
`{success := true}`, and afterwards the incident's status is
`in_progress` and its `updated_at` is strictly larger than before. -/
theorem executeAction_success_sets_in_progress (store : List Incident)
    (id : String) (msg : String) (now : Nat) (i : Incident)
    (hfind : findIncident store id = some i) (hnow : i.updated_at < now) :
    ∃ store' : List Incident,
      Backend.executeAction store id true msg now
          = Except.ok (store', { success := true, message := msg }) ∧
        ∃ i' : Incident, findIncident store' id = some i' ∧
          i'.status = Status.in_progress ∧ i.updated_at < i'.updated_at := by
  refine ⟨store.map (fun j =>
    if j.id == id then { j with status := Status.in_progress, updated_at := now }
    else j), ?_, ?_⟩
  · simp [Backend.executeAction, hfind]
  · have hfind' : store.find? (fun j => j.id == id) = some i := hfind
    have hid : (i.id == id) = true :=
      List.find?_some (p := fun j : Incident => j.id == id) hfind'
    have ha : i.id = id := by simpa using hid
    refine ⟨{ i with status := Status.in_progress, updated_at := now }, ?_, rfl, hnow⟩
    rw [findIncident_map_update store id
      (fun j => { j with status := Status.in_progress, updated_at := now })
      (fun j => rfl)]
    simp [hfind, ha]

/-- C5 witness: the theorem applied to a one-incident store, an action
succeeding at time 300 on an incident last updated at time 100. -/
theorem executeAction_success_sets_in_progress_witness :
    ∃ store' : List Incident,
      Backend.executeAction [dbCriticalIncident] "i1" true "restarted" 300
          = Except.ok (store', { success := true, message := "restarted" }) ∧
        ∃ i' : Incident, findIncident store' "i1" = some i' ∧
          i'.status = Status.in_progress ∧
          dbCriticalIncident.updated_at < i'.updated_at :=
  executeAction_success_sets_in_progress [dbCriticalIncident] "i1" "restarted" 300
    dbCriticalIncident (by decide) (by decide)

/-- Every stored id is at most as long as the concatenation of all
stored ids. -/
theorem id_length_le_concat (store : List Incident) :
    ∀ i ∈ store,
      i.id.data.length ≤ (store.foldr (fun i acc => i.id.data ++ acc) []).length := by
  induction store with
  | nil => intro i h; cases h
  | cons a rest ih =>
    intro i h
    simp only [List.foldr_cons, List.length_append]
    rcases List.mem_cons.mp h with h1 | h2
    · subst h1; exact Nat.le_add_right _ _
    · exact le_trans (ih i h2) (Nat.le_add_left _ _)

/-- C6: creating an incident sends the incident fields minus the id (the
`IncidentFields` payload) and yields a new `Incident` whose id differs
from every id already in the store, whose status is `open`, and whose
`created_at` equals `updated_at` (both the creation time), the
submitted descriptive fields carried through unchanged. -/
theorem createIncident_fresh_open_timestamps (store : List Incident)
    (f : IncidentFields) (now : Nat) :
    (Backend.createIncident store f now).status = Status.open_ ∧
      (Backend.createIncident store f now).created_at
          = (Backend.createIncident store f now).updated_at ∧
      (Backend.createIncident store f now).created_at = now ∧
      (Backend.createIncident store f now).title = f.title ∧
      (Backend.createIncident store f now).description = f.description ∧
      (Backend.createIncident store f now).component = f.component ∧
      (Backend.createIncident store f now).severity = f.severity ∧
      (Backend.createIncident store f now).affected_service = f.affected_service ∧
      store.all (fun i => i.id != (Backend.createIncident store f now).id) = true := by
  refine ⟨rfl, rfl, rfl, rfl, rfl, rfl, rfl, rfl, ?_⟩
  rw [List.all_eq_true]
  intro i hi
  have hlen := id_length_le_concat store i hi
  simp only [bne_iff_ne, ne_eq, Backend.createIncident]
  intro heq
  have hcontra : i.id.data.length = (freshId store).data.length := by rw [heq]
  simp only [freshId, String.mk, List.length_append, List.length_cons,
    List.length_nil] at hcontra
  omega

/-- C7: closing a known incident succeeds with the incident resolved
and still present (the store and the locally updated display list keep
their lengths, and lookup finds the incident with status `resolved`),
and resolution is terminal at the UI surface: a resolved incident
renders no Close button and its Execute button is disabled whatever the
loading flag. -/
theorem closeIncident_resolves_and_is_terminal (store : List Incident)
    (id : String) (now : Nat) (i : Incident)
    (hfind : findIncident store id = some i) :
    ∃ store' : List Incident,
      Backend.closeIncident store id now = Except.ok store' ∧
        store'.length = store.length ∧
        ∃ i' : Incident, findIncident store' id = some i' ∧
          i'.status = Status.resolved ∧
          closeButtonShown i' = false ∧
          (∀ b : Bool, executeDisabled b i' = true) ∧
          (localCloseUpdate store id).length = store.length ∧
          ∃ j : Incident, findIncident (localCloseUpdate store id) id = some j ∧
            j.status = Status.resolved := by
  have hfind' : store.find? (fun j : Incident => j.id == id) = some i := hfind
  have hid : (i.id == id) = true :=
    List.find?_some (p := fun j : Incident => j.id == id) hfind'
  have ha : i.id = id := by simpa using hid
  refine ⟨store.map (fun j =>
    if j.id == id then { j with status := Status.resolved, updated_at := now }
    else j), ?_, by simp, ?_⟩
  · simp [Backend.closeIncident, hfind]
  · refine ⟨{ i with status := Status.resolved, updated_at := now }, ?_, rfl,
      by simp [closeButtonShown], fun b => by simp [executeDisabled], by
        simp [localCloseUpdate], ?_⟩
    · rw [findIncident_map_update store id
        (fun j => { j with status := Status.resolved, updated_at := now })
        (fun j => rfl)]
      simp [hfind, ha]
    · refine ⟨{ i with status := Status.resolved }, ?_, rfl⟩
      rw [localCloseUpdate, findIncident_map_update store id
        (fun j => { j with status := Status.resolved }) (fun j => rfl)]
      simp [hfind, ha]

/-- C7 witness: the theorem applied to a one-incident store. -/
theorem closeIncident_resolves_and_is_terminal_witness :
    ∃ store' : List Incident,
      Backend.closeIncident [dbCriticalIncident] "i1" 400 = Except.ok store' ∧
        store'.length = [dbCriticalIncident].length ∧
        ∃ i' : Incident, findIncident store' "i1" = some i' ∧
          i'.status = Status.resolved ∧
          closeButtonShown i' = false ∧
          (∀ b : Bool, executeDisabled b i' = true) ∧
          (localCloseUpdate [dbCriticalIncident] "i1").length
              = [dbCriticalIncident].length ∧
          ∃ j : Incident,
            findIncident (localCloseUpdate [dbCriticalIncident] "i1") "i1" = some j ∧
              j.status = Status.resolved :=
  closeIncident_resolves_and_is_terminal [dbCriticalIncident] "i1" 400
    dbCriticalIncident (by decide)

/-- C8: for every fetched incident list the Recent Activity view shows
a list sorted by `created_at` descending, of length at most 5, and that
list is a prefix of the full descending sort of the incidents, which is
itself a permutation of the fetched list - so the view shows at most
the 5 most recent incidents. -/
theorem recentActivity_sorted_take_five (l : List Incident) :
    List.Sorted createdDescRel (recentActivity l) ∧
      (recentActivity l).length ≤ 5 ∧
      recentActivity l <+: sortByCreatedDesc l ∧
      (sortByCreatedDesc l).Perm l := by
  refine ⟨?_, ?_, List.take_prefix 5 _, List.perm_insertionSort _ _⟩
  · exact List.Pairwise.sublist (List.take_sublist 5 _)
      (List.sorted_insertionSort createdDescRel l)
  · simp [recentActivity]

/-- C9: whatever the command and whatever state the popup is in, the
single timer fired after the fixed 2000 ms delay puts the popup in the
`completed` state carrying the Splunk link that embeds the URL-encoded
command; the status type has no failure value, so no error outcome is
reachable. -/
theorem popup_always_completes_successfully :
    (∀ (command : String) (s : PopupState),
        popupOnTimer command s
          = { status := PopupStatus.completed,
              splunkLink := "https://splunk.example.com/search?q=search%20command%3D"
                ++ encodeURIComponent command ++ "&earliest=-1h&latest=now" }) ∧
      popupDelayMs = 2000 ∧
      popupInit.status = PopupStatus.executing ∧
      (∀ st : PopupStatus,
        st = PopupStatus.executing ∨ st = PopupStatus.completed) := by
  refine ⟨fun command s => by cases s; rfl, rfl, rfl, fun st => ?_⟩
  cases st
  · exact Or.inl rfl
  · exact Or.inr rfl

/-- C10: on the empty incident list the Metrics page's resolution rate
evaluates to `NaN` (an unguarded `0/0`) while the dashboard overview's
rate is the explicit 100, so the two computations differ there; on
every non-empty list they are the identical expression and agree. -/
theorem resolutionRate_nan_on_empty_only (l : List Incident)
    (h : l ≠ []) :
    metricsResolutionRate [] = JSNum.nan ∧
      overviewResolutionRate [] = JSNum.num 100 ∧
      metricsResolutionRate [] ≠ overviewResolutionRate [] ∧
      metricsResolutionRate l = overviewResolutionRate l := by
  refine ⟨rfl, rfl, by decide, ?_⟩
  have hlen : 0 < l.length := List.length_pos.mpr h
  simp [metricsResolutionRate, overviewResolutionRate, hlen]

/-- C10 witness: the theorem applied to the one-incident list holding
`dbCriticalIncident`. -/
theorem resolutionRate_nan_on_empty_only_witness :
    metricsResolutionRate [] = JSNum.nan ∧
      overviewResolutionRate [] = JSNum.num 100 ∧
      metricsResolutionRate [] ≠ overviewResolutionRate [] ∧
      metricsResolutionRate [dbCriticalIncident]
        = overviewResolutionRate [dbCriticalIncident] :=
  resolutionRate_nan_on_empty_only [dbCriticalIncident] (by simp)

end GptSeek

